import Mathlib

/-!
Shallow embedding of `src/browser/provider/built-in/chrome/cdp.js`:
the Chrome remote-debugging (CDP) session controller of testcafe.

External collaborators (the CDP client library, the OS window manager)
are modelled by an `Env` of success oracles and a `Call` trace recording
every downstream invocation in order.  JavaScript async functions that
may reject are modelled as returning an `Outcome`: a success flag, the
(possibly partially mutated) runtime state, and the trace of calls made
before returning or throwing.  JavaScript in-place mutation of
`runtimeInfo` is modelled by explicit state passing; mutations performed
before a throw are visible in the returned state, exactly as in JS.
-/

/-- Logical viewport size, the `viewportSize` field of `runtimeInfo`. -/
structure ViewportSize where
  width : Nat
  height : Nat
deriving DecidableEq

/-- Static run configuration, the `config` field of `runtimeInfo`. -/
structure Config where
  scaleFactor : Nat
  mobile : Bool
  touch : Option Bool
  userAgent : Option String
  headless : Bool
  emulation : Bool
  width : Nat
  height : Nat
deriving DecidableEq

/-- A browser page descriptor as returned by `remoteChrome.listTabs`. -/
structure Tab where
  type : String
  url : String
  id : String
deriving DecidableEq

/-- The mutable session runtime state (`runtimeInfo` in the source).
The protocol client handle is modelled by a `Bool` recording whether
`runtimeInfo.client` has been assigned. -/
structure RuntimeInfo where
  browserId : String
  cdpPort : Nat
  config : Config
  tab : Option Tab
  client : Bool
  viewportSize : ViewportSize
deriving DecidableEq

/-- One downstream invocation against an external collaborator. -/
inductive Call where
  | listTabs (port : Nat)
  | openChannel (port : Nat)
  | pageEnable
  | networkEnable
  | userAgentOverride (userAgent : String)
  | touchEmulation (enabled : Bool) (configuration : String)
  | osResize (browserId : String) (cw ch nw nh : Nat)
  | deviceMetrics (width height scaleFactor : Nat) (mobile fitWindow : Bool)
  | visibleSize (width height : Nat)
deriving DecidableEq

/-- Environment of external collaborators: the page list the endpoint
reports, and a success oracle for each fallible external call. -/
structure Env where
  tabs : List Tab
  openChannelOk : Bool
  pageEnableOk : Bool
  networkEnableOk : Bool
  userAgentOk : Bool
  touchOk : Bool
  osResizeOk : Bool
  deviceMetricsOk : Bool
  visibleSizeOk : Bool
deriving DecidableEq

/-- Result of running one of the async operations: `ok` is `true` when
the JS function returned normally and `false` when it rejected; `state`
is the runtime state after all mutations performed up to that point;
`trace` lists the downstream calls issued, in order. -/
structure Outcome where
  ok : Bool
  state : RuntimeInfo
  trace : List Call
deriving DecidableEq

/-- The `newDimensions` argument of `resizeWindow`: either dimension may
be absent. -/
structure Dimensions where
  width : Option Nat
  height : Option Nat
deriving DecidableEq

/-- JavaScript `x || d` on numbers: an absent value and the number 0 are
both falsy, so they yield the default. -/
def jsOr : Option Nat → Nat → Nat
  | none, d => d
  | some 0, d => d
  | some (n + 1), _ => n + 1

/-- Checks that the first list is an initial segment of the second. -/
def hasPref : List Char → List Char → Bool
  | [], _ => true
  | _ :: _, [] => false
  | p :: ps, c :: cs => (p == c) && hasPref ps cs

/-- Checks that the first list occurs contiguously inside the second. -/
def subAt : List Char → List Char → Bool
  | pat, [] => hasPref pat []
  | pat, c :: cs => hasPref pat (c :: cs) || subAt pat cs

/-- JavaScript `s.indexOf(pat) > -1`: substring containment. -/
def strHas (s pat : String) : Bool := subAt pat.toList s.toList

/-- The filter used by `getActiveTab`:
`t.type === 'page' && t.url.indexOf(browserId) > -1`. -/
def tabMatches (browserId : String) (t : Tab) : Bool :=
  t.type == "page" && strHas t.url browserId

/-- Embedding of `getActiveTab (cdpPort, browserId)` (cdp.js lines 6-11):
lists all tabs at the endpoint and takes element `[0]` of the filtered
list, which is `undefined` (here `none`) when nothing matches.  The call
to `listTabs` is recorded by the callers trace, not here, since this
helper only computes the selected tab. -/
def getActiveTab (env : Env) (_cdpPort : Nat) (browserId : String) : Option Tab :=
  (env.tabs.filter (tabMatches browserId)).head?

/-- Embedding of `setEmulationBounds` (cdp.js lines 13-23): pushes
`Emulation.setDeviceMetricsOverride` with the current `viewportSize`,
the configured scale factor and mobile flag and `fitWindow: false`, then
`Emulation.setVisibleSize` with the same dimensions.  Returns the
success flag and the calls issued (a failing call is still issued). -/
def setEmulationBounds (env : Env) (s : RuntimeInfo) : Bool × List Call :=
  let dm := Call.deviceMetrics s.viewportSize.width s.viewportSize.height
              s.config.scaleFactor s.config.mobile false
  if !env.deviceMetricsOk then
    (false, [dm])
  else
    let vs := Call.visibleSize s.viewportSize.width s.viewportSize.height
    if !env.visibleSizeOk then (false, [dm, vs]) else (true, [dm, vs])

/-- Embedding of `resizeWindow (newDimensions, runtimeInfo)` (cdp.js
lines 80-97).  Computes the new dimensions with JS `||` defaulting, then:
if not headless, awaits the OS resize (a rejection there propagates,
leaving `viewportSize` untouched and skipping emulation); then mutates
`viewportSize`; then, if emulation is configured, awaits
`setEmulationBounds`. -/
def resizeWindow (env : Env) (nd : Dimensions) (s : RuntimeInfo) : Outcome :=
  let currentWidth := s.viewportSize.width
  let currentHeight := s.viewportSize.height
  let newWidth := jsOr nd.width currentWidth
  let newHeight := jsOr nd.height currentHeight
  let osTrace :=
    if !s.config.headless then
      [Call.osResize s.browserId currentWidth currentHeight newWidth newHeight]
    else []
  if !s.config.headless && !env.osResizeOk then
    { ok := false, state := s, trace := osTrace }
  else
    let s2 := { s with viewportSize := ⟨newWidth, newHeight⟩ }
    if s2.config.emulation then
      let eb := setEmulationBounds env s2
      { ok := eb.1, state := s2, trace := osTrace ++ eb.2 }
    else
      { ok := true, state := s2, trace := osTrace }

/-- Embedding of `setEmulation (runtimeInfo)` (cdp.js lines 25-39):
user-agent override if configured, touch emulation if configured, then
`resizeWindow` with the configured initial width and height. -/
def setEmulation (env : Env) (s : RuntimeInfo) : Outcome :=
  let uaTrace :=
    match s.config.userAgent with
    | some ua => [Call.userAgentOverride ua]
    | none => []
  if s.config.userAgent.isSome && !env.userAgentOk then
    { ok := false, state := s, trace := uaTrace }
  else
    let tTrace :=
      match s.config.touch with
      | some b => [Call.touchEmulation b (if s.config.mobile then "mobile" else "desktop")]
      | none => []
    if s.config.touch.isSome && !env.touchOk then
      { ok := false, state := s, trace := uaTrace ++ tTrace }
    else
      let r := resizeWindow env ⟨some s.config.width, some s.config.height⟩ s
      { r with trace := uaTrace ++ tTrace ++ r.trace }

/-- Embedding of `createClient (runtimeInfo)` (cdp.js lines 41-64):
resolves the tab (returning normally with the state untouched when no
tab matches), opens the channel inside a try/catch that converts any
negotiation failure into a plain return, then assigns `runtimeInfo.tab`
and `runtimeInfo.client`, then enables the `Page` and `Network` domains
(failures there propagate), and finally applies emulation when the
configuration requests it. -/
def createClient (env : Env) (s : RuntimeInfo) : Outcome :=
  let baseTrace := [Call.listTabs s.cdpPort]
  match getActiveTab env s.cdpPort s.browserId with
  | none => { ok := true, state := s, trace := baseTrace }
  | some tab =>
    let openTrace := baseTrace ++ [Call.openChannel s.cdpPort]
    if !env.openChannelOk then
      { ok := true, state := s, trace := openTrace }
    else
      let s2 := { s with tab := some tab, client := true }
      let peTrace := openTrace ++ [Call.pageEnable]
      if !env.pageEnableOk then
        { ok := false, state := s2, trace := peTrace }
      else
        let neTrace := peTrace ++ [Call.networkEnable]
        if !env.networkEnableOk then
          { ok := false, state := s2, trace := neTrace }
        else if s2.config.emulation then
          let r := setEmulation env s2
          { r with trace := neTrace ++ r.trace }
        else
          { ok := true, state := s2, trace := neTrace }

/-- Embedding of `isHeadlessTab ({ tab, config })` (cdp.js lines 66-68):
JS `tab && config.headless` evaluates to a falsy value when `tab` is
unset and to `config.headless` otherwise; the embedding returns its
boolean coercion. -/
def isHeadlessTab (s : RuntimeInfo) : Bool :=
  s.tab.isSome && s.config.headless

/-- A matching page descriptor used in the concrete scenarios. -/
def demoTab : Tab := { type := "page", url := "http://x/b", id := "t1" }

/-- Environment in which the endpoint lists the matching tab and every
external call succeeds. -/
def envOK : Env :=
  { tabs := [demoTab], openChannelOk := true, pageEnableOk := true,
    networkEnableOk := true, userAgentOk := true, touchOk := true,
    osResizeOk := true, deviceMetricsOk := true, visibleSizeOk := true }

/-- Environment where the OS window resize fails. -/
def envOsFail : Env := { envOK with osResizeOk := false }

/-- Environment where the device-metrics override push fails. -/
def envDmFail : Env := { envOK with deviceMetricsOk := false }

/-- Environment where enabling the Page domain fails. -/
def envPeFail : Env := { envOK with pageEnableOk := false }

/-- Environment where channel negotiation fails. -/
def envNoChannel : Env := { envOK with openChannelOk := false }

/-- Environment where the endpoint lists no pages at all. -/
def envNoTab : Env := { envOK with tabs := [] }

/-- The configuration of the C1 scenario: width 1024, height 768, not
headless, emulation on, scale factor 1, not mobile. -/
def c1Config : Config :=
  { scaleFactor := 1, mobile := false, touch := none, userAgent := none,
    headless := false, emulation := true, width := 1024, height := 768 }

/-- Session runtime state before connecting, with the C1 configuration. -/
def c1Init : RuntimeInfo :=
  { browserId := "b", cdpPort := 9222, config := c1Config, tab := none,
    client := false, viewportSize := ⟨1024, 768⟩ }

/-- Session runtime state after a successful connect with the C1
configuration. -/
def c1State : RuntimeInfo :=
  { browserId := "b", cdpPort := 9222, config := c1Config,
    tab := some demoTab, client := true, viewportSize := ⟨1024, 768⟩ }

/-- A headless session state with emulation enabled, scale factor 2 and
mobile flag set, used for the headless scenarios. -/
def c8Config : Config :=
  { scaleFactor := 2, mobile := true, touch := none, userAgent := none,
    headless := true, emulation := true, width := 1024, height := 768 }

/-- Connected runtime state of the headless session. -/
def c8State : RuntimeInfo :=
  { browserId := "b", cdpPort := 9222, config := c8Config,
    tab := some demoTab, client := true, viewportSize := ⟨1024, 768⟩ }

/-- C1: with config width 1024, height 768, headless false, emulation
true, scaleFactor 1, mobile false, after a successful connect, resize
with width 800 sets viewportSize to (800, 768), invokes the OS resize
from (1024, 768) to (800, 768), and pushes a device-metrics override
(800, 768, scale 1, mobile false, fitWindow false) followed by a
visible-size override (800, 768). -/
theorem c1_resize_scenario :
    (resizeWindow envOK ⟨some 800, none⟩ (createClient envOK c1Init).state).state.viewportSize
        = ⟨800, 768⟩ ∧
      (resizeWindow envOK ⟨some 800, none⟩ (createClient envOK c1Init).state).trace
        = [Call.osResize "b" 1024 768 800 768,
           Call.deviceMetrics 800 768 1 false false,
           Call.visibleSize 800 768] := by
  decide

/-- C2 counterexample: in the connected non-headless emulation session,
when the OS window resize fails, resize does not update viewportSize to
the new dimensions and does not attempt the device-metrics override, so
the remaining steps are not performed. -/
theorem c2_counterexample :
    ¬ ((resizeWindow envOsFail ⟨some 800, none⟩ c1State).state.viewportSize = ⟨800, 768⟩ ∧
        Call.deviceMetrics 800 768 1 false false
          ∈ (resizeWindow envOsFail ⟨some 800, none⟩ c1State).trace) := by
  decide

/-- C2 (amended): for a non-headless session, when the OS window resize
fails, the rejection propagates out of resize before the remaining
steps run: the runtime state (in particular viewportSize) is unchanged
and no device-metrics override is attempted. -/
theorem c2_os_failure_aborts (env : Env) (nd : Dimensions) (s : RuntimeInfo)
    (hh : s.config.headless = false) (hf : env.osResizeOk = false) :
    (resizeWindow env nd s).ok = false ∧
      (resizeWindow env nd s).state = s ∧
      ∀ w h sc mb fw, Call.deviceMetrics w h sc mb fw ∉ (resizeWindow env nd s).trace := by
  simp [resizeWindow, hh, hf]

/-- C2 witness: the amended statement holds at the concrete failing
scenario of the counterexample. -/
theorem c2_os_failure_aborts_witness :
    c1State.config.headless = false ∧ envOsFail.osResizeOk = false ∧
      (resizeWindow envOsFail ⟨some 800, none⟩ c1State).ok = false ∧
      Call.deviceMetrics 800 768 1 false false
        ∉ (resizeWindow envOsFail ⟨some 800, none⟩ c1State).trace :=
  ⟨rfl, rfl, (c2_os_failure_aborts envOsFail ⟨some 800, none⟩ c1State rfl rfl).1,
    (c2_os_failure_aborts envOsFail ⟨some 800, none⟩ c1State rfl rfl).2.2 800 768 1 false false⟩

/-- C3 counterexample: in the connected session, when the device-metrics
override push fails, resize rejects (a downstream push failed) and yet
viewportSize has been updated away from its previous value, so the
runtime state records a size that was not successfully applied. -/
theorem c3_counterexample :
    (resizeWindow envDmFail ⟨some 800, none⟩ c1State).ok = false ∧
      (resizeWindow envDmFail ⟨some 800, none⟩ c1State).state.viewportSize ≠
        c1State.viewportSize := by
  decide

/-- C3 (amended): viewportSize is left unchanged exactly when the OS
resize step runs and fails; in every other case it is updated to the
new dimensions before the emulation overrides are pushed, so a failing
device-metrics or visible-size push still leaves viewportSize recording
the new size. -/
theorem c3_viewport_vs_failures (env : Env) (nd : Dimensions) (s : RuntimeInfo) :
    (resizeWindow env nd s).state.viewportSize =
      (if s.config.headless || env.osResizeOk then
        ⟨jsOr nd.width s.viewportSize.width, jsOr nd.height s.viewportSize.height⟩
      else s.viewportSize) := by
  cases hh : s.config.headless <;> cases ho : env.osResizeOk <;>
    cases he : s.config.emulation <;>
      simp [resizeWindow, hh, ho, he]

/-- C4: when opening the control channel fails, createClient returns
normally (the exception does not propagate to the caller) and the
runtime state is exactly as before, so the caller observes only the
absence of a usable channel. -/
theorem c4_channel_failure_swallowed (env : Env) (s : RuntimeInfo)
    (h : env.openChannelOk = false) :
    (createClient env s).ok = true ∧ (createClient env s).state = s := by
  rcases hg : getActiveTab env s.cdpPort s.browserId with _ | tab <;>
    simp [createClient, hg, h]

/-- C4 witness: the channel-failure environment at the initial state. -/
theorem c4_channel_failure_swallowed_witness :
    envNoChannel.openChannelOk = false ∧
      (createClient envNoChannel c1Init).ok = true ∧
      (createClient envNoChannel c1Init).state = c1Init :=
  ⟨rfl, c4_channel_failure_swallowed envNoChannel c1Init rfl⟩

/-- C5 counterexample: with a matching tab and a successful channel
opening but a failing Page.enable, createClient rejects leaving a state
in which the client handle is recorded while domain enablement has not
completed (Network.enable was never invoked), so such a state is
reachable. -/
theorem c5_counterexample :
    (createClient envPeFail c1Init).ok = false ∧
      (createClient envPeFail c1Init).state.client = true ∧
      Call.networkEnable ∉ (createClient envPeFail c1Init).trace := by
  decide

/-- C5 (amended): the client handle is recorded in the runtime state
before the protocol domains are enabled, so a failed enablement leaves
a recorded client without fully enabled domains; whenever createClient
completes without error having recorded a client, both the Page and the
Network domains were enabled before it returned. -/
theorem c5_domains_on_success (env : Env) (s : RuntimeInfo)
    (hc : s.client = false)
    (hok : (createClient env s).ok = true)
    (hset : (createClient env s).state.client = true) :
    Call.pageEnable ∈ (createClient env s).trace ∧
      Call.networkEnable ∈ (createClient env s).trace := by
  rcases hg : getActiveTab env s.cdpPort s.browserId with _ | tab <;>
    cases hoc : env.openChannelOk <;>
      cases hpe : env.pageEnableOk <;>
        cases hne : env.networkEnableOk <;>
          cases hem : s.config.emulation <;>
            simp_all [createClient, hg, hoc, hpe, hne, hem]

/-- C5 witness: the amended statement holds at the fully successful
connect of the C1 scenario. -/
theorem c5_domains_on_success_witness :
    c1Init.client = false ∧
      (createClient envOK c1Init).ok = true ∧
      (createClient envOK c1Init).state.client = true ∧
      Call.pageEnable ∈ (createClient envOK c1Init).trace ∧
      Call.networkEnable ∈ (createClient envOK c1Init).trace :=
  ⟨rfl, by decide, by decide,
    c5_domains_on_success envOK c1Init rfl (by decide) (by decide)⟩

/-- C6: for a non-headless session with emulation enabled, when the OS
resize succeeds, resize with only a positive width w sets
viewportSize.width to w and leaves viewportSize.height at its current
value (the omitted dimension defaults to the current viewportSize
value). -/
theorem c6_width_only_resize (env : Env) (w : Nat) (s : RuntimeInfo)
    (hw : 0 < w) (hh : s.config.headless = false)
    (he : s.config.emulation = true) (ho : env.osResizeOk = true) :
    (resizeWindow env ⟨some w, none⟩ s).state.viewportSize =
      ⟨w, s.viewportSize.height⟩ := by
  cases w with
  | zero => exact absurd hw (by simp)
  | succ n => simp [resizeWindow, hh, he, ho, jsOr]

/-- C6 witness: width-only resize to 800 in the connected C1 session. -/
theorem c6_width_only_resize_witness :
    0 < 800 ∧ c1State.config.headless = false ∧
      c1State.config.emulation = true ∧ envOK.osResizeOk = true ∧
      (resizeWindow envOK ⟨some 800, none⟩ c1State).state.viewportSize =
        ⟨800, c1State.viewportSize.height⟩ :=
  ⟨by decide, rfl, rfl, rfl,
    c6_width_only_resize envOK 800 c1State (by decide) rfl rfl rfl⟩

/-- C7: tab resolution is deterministic over a fixed page list:
getActiveTab returns some t exactly when t matches (its type is page
and its url contains the marker) and t is the first match in listing
order, and returns none exactly when no listed page matches (including
the empty list). -/
theorem c7_first_matching_tab (env : Env) (port : Nat) (bid : String) (t : Tab) :
    (getActiveTab env port bid = some t ↔
        tabMatches bid t = true ∧
          ∃ pre post, env.tabs = pre ++ t :: post ∧
            ∀ u ∈ pre, tabMatches bid u = false) ∧
      (getActiveTab env port bid = none ↔
        ∀ u ∈ env.tabs, tabMatches bid u = false) := by
  unfold getActiveTab
  rw [List.filter_head?]
  constructor
  · rw [List.find?_eq_some]
    simp
  · rw [List.find?_eq_none]
    simp

/-- C8: for a headless session with emulation enabled, resize with only
a positive height h never invokes the OS window resize, and still
pushes the device-metrics override with the updated height and the
unchanged current width. -/
theorem c8_headless_resize (env : Env) (h : Nat) (s : RuntimeInfo)
    (hh : s.config.headless = true) (he : s.config.emulation = true)
    (hp : 0 < h) :
    (∀ b cw ch nw nh,
        Call.osResize b cw ch nw nh ∉ (resizeWindow env ⟨none, some h⟩ s).trace) ∧
      Call.deviceMetrics s.viewportSize.width h s.config.scaleFactor s.config.mobile false
        ∈ (resizeWindow env ⟨none, some h⟩ s).trace := by
  cases h with
  | zero => exact absurd hp (by simp)
  | succ n =>
    cases hdm : env.deviceMetricsOk <;> cases hvs : env.visibleSizeOk <;>
      simp [resizeWindow, setEmulationBounds, hh, he, hdm, hvs, jsOr]

/-- C8 witness: height-only resize to 600 in the connected headless
session with scale factor 2 and mobile flag set. -/
theorem c8_headless_resize_witness :
    c8State.config.headless = true ∧ c8State.config.emulation = true ∧ 0 < 600 ∧
      Call.osResize "b" 1024 768 1024 600
        ∉ (resizeWindow envOK ⟨none, some 600⟩ c8State).trace ∧
      Call.deviceMetrics 1024 600 2 true false
        ∈ (resizeWindow envOK ⟨none, some 600⟩ c8State).trace :=
  ⟨rfl, rfl, by decide,
    (c8_headless_resize envOK 600 c8State rfl rfl (by decide)).1 "b" 1024 768 1024 600,
    (c8_headless_resize envOK 600 c8State rfl rfl (by decide)).2⟩

/-- C9: isHeadlessTab is a pure function of the runtime state that
returns true exactly when a tab has been resolved and the configuration
flags headless mode, and false in every other case, including when no
tab is resolved. -/
theorem c9_isHeadless_iff (s : RuntimeInfo) :
    isHeadlessTab s = true ↔ s.tab.isSome = true ∧ s.config.headless = true := by
  simp [isHeadlessTab]

/-- C10: when tab resolution finds no matching page or opening the
channel fails, createClient returns with the runtime state exactly as
it was (neither the tab nor the client field is assigned), without
enabling any protocol domain and without applying any emulation
setting. -/
theorem c10_failed_connect_atomic (env : Env) (s : RuntimeInfo)
    (h : getActiveTab env s.cdpPort s.browserId = none ∨ env.openChannelOk = false) :
    (createClient env s).state = s ∧
      Call.pageEnable ∉ (createClient env s).trace ∧
      Call.networkEnable ∉ (createClient env s).trace ∧
      (∀ w ht sc mb fw, Call.deviceMetrics w ht sc mb fw ∉ (createClient env s).trace) ∧
      (∀ w ht, Call.visibleSize w ht ∉ (createClient env s).trace) ∧
      (∀ ua, Call.userAgentOverride ua ∉ (createClient env s).trace) ∧
      (∀ b c, Call.touchEmulation b c ∉ (createClient env s).trace) := by
  rcases hg : getActiveTab env s.cdpPort s.browserId with _ | tab
  · simp [createClient, hg]
  · rcases h with h | h
    · rw [hg] at h
      exact absurd h (by simp)
    · simp [createClient, hg, h]

/-- C10 witness: connect against an endpoint listing no pages. -/
theorem c10_failed_connect_atomic_witness :
    (getActiveTab envNoTab c1Init.cdpPort c1Init.browserId = none ∨
        envNoTab.openChannelOk = false) ∧
      (createClient envNoTab c1Init).state = c1Init ∧
      Call.pageEnable ∉ (createClient envNoTab c1Init).trace :=
  ⟨Or.inl rfl, (c10_failed_connect_atomic envNoTab c1Init (Or.inl rfl)).1,
    (c10_failed_connect_atomic envNoTab c1Init (Or.inl rfl)).2.1⟩
